import Mathlib

/-!
# ccpd: the `_constants` extension module

Shallow embedding of `src/cc_libraries/_constants.cc`:

```
PYBIND11_MODULE(_constants, module)
{
    module.add_object("AIR_SPECIFIC_HEAT", py::float_(kAirSpecificHeat));
}
```

The file has one statement.  Everything it calls belongs to pybind11 and to the
CPython C API; those callees are embedded here as far as the statement reaches
into them:

* `py::float_(double)`            : `PyFloat_FromDouble`, throwing when it yields `NULL`;
* `module_::add_object`           : the `overwrite` guard with `hasattr`, then
                                    `PyModule_AddObject`, whose status it discards;
* `PYBIND11_MODULE`               : `module_::create_extension_module`, the user body
                                    inside `try`, and `PYBIND11_CATCH_INIT_EXCEPTIONS`.

The interpreter state is cut down to what the statement touches: the
dictionary of the module being populated, the error indicator, and the
outcomes of the two host calls that can fail, `PyFloat_FromDouble` and
`PyModule_AddObject`.
-/

namespace ccpd.fluids

/-! ## Native and host values -/

/-- A native `double`, carried as its IEEE-754 binary64 bit pattern
(`bits % 2^64` is the pattern).  The registrar does no arithmetic on it. -/
structure Double where
  bits : Nat
deriving DecidableEq, Repr

/-- Sign bit of a binary64 pattern. -/
def Double.sign (d : Double) : Nat := (d.bits % 2 ^ 64) / 2 ^ 63

/-- Biased exponent field (11 bits) of a binary64 pattern. -/
def Double.biasedExp (d : Double) : Nat := (d.bits % 2 ^ 63) / 2 ^ 52

/-- Fraction field (52 bits) of a binary64 pattern. -/
def Double.fraction (d : Double) : Nat := d.bits % 2 ^ 52

/-- The rational number a finite binary64 pattern denotes (`none` for
infinities and NaNs). -/
def Double.toRat (d : Double) : Option ℚ :=
  if d.biasedExp = 2047 then none
  else
    let s : ℚ := if d.sign = 0 then 1 else -1
    if d.biasedExp = 0 then
      some (s * (d.fraction : ℚ) / 2 ^ 1074)
    else if 1075 ≤ d.biasedExp then
      some (s * ((2 ^ 52 + d.fraction : Nat) : ℚ) * 2 ^ (d.biasedExp - 1075))
    else
      some (s * ((2 ^ 52 + d.fraction : Nat) : ℚ) / 2 ^ (1075 - d.biasedExp))

/-- The literal `1005.0` as a binary64 pattern: sign 0, exponent 1032
(`2^9`), fraction `493 * 2^43`. -/
def double_1005_0 : Double := ⟨0x408F680000000000⟩

/-- The host objects that can occur in a module dictionary here. -/
inductive PyObject where
  /-- The object `Py_None` -/
  | none
  /-- A `PyUnicodeObject` -/
  | str (s : String)
  /-- A `PyLongObject` -/
  | int (ob_ival : Int)
  /-- A `PyFloatObject`; its only payload is the C `double` field `ob_fval` -/
  | float (ob_fval : Double)
deriving DecidableEq, Repr

/-- The macro `PyFloat_Check`: the object's type is the host's `float`. -/
def PyFloat_Check : PyObject → Bool
  | .float _ => true
  | _ => false

/-- The call `PyFloat_AsDouble` on a float object reads `ob_fval` back (`none` stands
for the error return on an object that is not a float and has no
`__float__`). -/
def PyFloat_AsDouble : PyObject → Option Double
  | .float v => some v
  | _ => Option.none

/-! ## Module dictionary -/

/-- A module's `md_dict`: string keys, insertion ordered, one entry per key. -/
abbrev Dict := List (String × PyObject)

/-- The lookup `PyDict_GetItemString`. -/
def PyDict_GetItemString : Dict → String → Option PyObject
  | [], _ => Option.none
  | (k, v) :: rest, key => if k = key then some v else PyDict_GetItemString rest key

/-- The update `PyDict_SetItemString`: rebinds the key in place when present, appends it
otherwise. -/
def PyDict_SetItemString : Dict → String → PyObject → Dict
  | [], key, val => [(key, val)]
  | (k, v) :: rest, key, val =>
    if k = key then (k, val) :: rest else (k, v) :: PyDict_SetItemString rest key val

/-- The attribute names of a module (`dir`, up to order): the keys of its dictionary. -/
def Dict.keys (d : Dict) : List String := d.map Prod.fst

/-- The names every module answers to through its type rather than its
dictionary: `dir(type(module))` in CPython 3.11. -/
def moduleTypeAttrs : List String :=
  ["__annotations__", "__class__", "__delattr__", "__dict__", "__dir__", "__doc__",
   "__eq__", "__format__", "__ge__", "__getattribute__", "__getstate__", "__gt__",
   "__hash__", "__init__", "__init_subclass__", "__le__", "__lt__", "__ne__", "__new__",
   "__reduce__", "__reduce_ex__", "__repr__", "__setattr__", "__sizeof__", "__str__",
   "__subclasshook__"]

/-- Whether `PyObject_GetAttrString(module, name)` finds an attribute: on
the module type, or in the module's dictionary. -/
def hasAttribute (d : Dict) (name : String) : Bool :=
  moduleTypeAttrs.contains name || (PyDict_GetItemString d name).isSome

/-- Module creation, `PyModule_New` through `module_init_dict`: a new module's dictionary
holds `__name__`, `__doc__`, `__package__`, `__loader__` and `__spec__`;
`doc` is `NULL` here, so `__doc__` is `None`.  (For a module imported from
inside a package the host puts the package-qualified name in `__name__`;
nothing below depends on the value.  After the initialiser has returned the
host's loader adds attributes of its own, such as `__file__`.) -/
def PyModule_Create (name : String) : Dict :=
  [("__name__", PyObject.str name), ("__doc__", PyObject.none),
   ("__package__", PyObject.none), ("__loader__", PyObject.none),
   ("__spec__", PyObject.none)]

/-! ## Interpreter state and exceptions -/

/-- Python exception types that reach the error indicator here. -/
inductive PyExcType where
  | ImportError
  | MemoryError
deriving DecidableEq, Repr

/-- The interpreter's error indicator when set. -/
structure PyErr where
  exc : PyExcType
  msg : String
deriving DecidableEq, Repr

/-- The error `PyErr_NoMemory()` sets. -/
def PyErr_NoMemory : PyErr := ⟨PyExcType.MemoryError, ""⟩

/-- The part of the interpreter the initialiser touches.  `allocOk n` is the
outcome of the `n`-th `PyFloat_FromDouble` call and `allocs` counts those
calls; `insertOk n` is the outcome of the `n`-th `PyModule_AddObject` call
and `inserts` counts those; `md_dict` is the dictionary of the module being
populated; `err` is the error indicator. -/
structure World where
  allocOk : Nat → Bool
  allocs : Nat
  insertOk : Nat → Bool
  inserts : Nat
  md_dict : Dict
  err : Option PyErr

/-- The C++ exception `std::runtime_error`, as thrown by `pybind11_fail`. -/
structure runtime_error where
  what : String
deriving DecidableEq, Repr

/-- The call `pybind11_fail(reason)` throws `std::runtime_error(reason)`. -/
def pybind11_fail (reason : String) : runtime_error := ⟨reason⟩

/-! ## pybind11 -/

/-- The call `PyFloat_FromDouble`: a new float object holding `v`, or, when
the host cannot allocate it, `NULL` with `MemoryError` set. -/
def PyFloat_FromDouble (v : Double) (w : World) : Option PyObject × World :=
  if w.allocOk w.allocs then
    (some (PyObject.float v), { w with allocs := w.allocs + 1 })
  else
    (Option.none, { w with allocs := w.allocs + 1, err := some PyErr_NoMemory })

/-- The constructor `py::float_(double value)`:
`object(PyFloat_FromDouble(value), stolen_t)` and, if the pointer is null,
`pybind11_fail("Could not allocate float object!")`. -/
def float_ (value : Double) (w : World) : Except runtime_error PyObject × World :=
  match PyFloat_FromDouble value w with
  | (some obj, w1) => (Except.ok obj, w1)
  | (Option.none, w1) => (Except.error (pybind11_fail "Could not allocate float object!"), w1)

/-- The test `hasattr(module, name)`, that is `PyObject_HasAttrString(...) == 1`:
```
res = PyObject_GetAttrString(v, name);
if (res != NULL) { Py_DECREF(res); return 1; }
PyErr_Clear();
return 0;
```
When the attribute is not found the error indicator is cleared, whatever
it held. -/
def hasattr (w : World) (name : String) : Bool × World :=
  if hasAttribute w.md_dict name then (true, w)
  else (false, { w with err := Option.none })

/-- The call `PyModule_AddObject(module, name, obj)`: on success
`PyDict_SetItemString` on the module's dictionary and status `0`; on
failure the dictionary is untouched, an error is set and the status is `-1`. -/
def PyModule_AddObject (name : String) (obj : PyObject) (w : World) : Int × World :=
  if w.insertOk w.inserts then
    (0, { w with inserts := w.inserts + 1,
                 md_dict := PyDict_SetItemString w.md_dict name obj })
  else
    (-1, { w with inserts := w.inserts + 1, err := some PyErr_NoMemory })

/-- The message `add_object` throws for a name that is already bound. -/
def duplicateMessage (name : String) : String :=
  "Error during initialization: multiple incompatible definitions with name \"" ++ name ++ "\""

/-- The member `module_::add_object(const char *name, handle obj, bool overwrite = false)`:
```
if (!overwrite && hasattr(*this, name))
    pybind11_fail("Error during initialization: multiple incompatible definitions with name \"" + name + "\"");
PyModule_AddObject(ptr(), name, obj.inc_ref().ptr());
```
`hasattr` is called only when `overwrite` is false; the status of
`PyModule_AddObject` is discarded.  The C++ default `overwrite = false` is
passed explicitly by callers here. -/
def add_object (name : String) (obj : PyObject) (overwrite : Bool) (w : World) :
    Except runtime_error Unit × World :=
  if overwrite then
    (Except.ok (), (PyModule_AddObject name obj w).2)
  else
    match hasattr w name with
    | (true, w1) => (Except.error (pybind11_fail (duplicateMessage name)), w1)
    | (false, w1) => (Except.ok (), (PyModule_AddObject name obj w1).2)

/-! ## The module body -/

/-- The body of `PYBIND11_MODULE(_constants, module)`, that is
`pybind11_init__constants(module_ &module)`:
```
module.add_object("AIR_SPECIFIC_HEAT", py::float_(kAirSpecificHeat));
```
The argument `py::float_(kAirSpecificHeat)` is evaluated before the call.
`kAirSpecificHeat` comes from `ccpd/cc_libraries/constants.h` and is a
parameter here.  The module is mutated in place, so the world is returned
on the exceptional path as well. -/
def pybind11_init__constants (kAirSpecificHeat : Double) (w : World) :
    Except runtime_error Unit × World :=
  match float_ kAirSpecificHeat w with
  | (Except.error e, w1) => (Except.error e, w1)
  | (Except.ok obj, w1) => add_object "AIR_SPECIFIC_HEAT" obj false w1

/-- What the `PyInit_` function hands to the host: the module pointer
(`none` for `nullptr`; the module is shown by its dictionary) and the error
indicator as it stands on return. -/
structure InitResult where
  ret : Option Dict
  err : Option PyErr
deriving DecidableEq, Repr

/-- The `try` block of `PYBIND11_MODULE` with its
`PYBIND11_CATCH_INIT_EXCEPTIONS` handler, around a body `init`, for a
module whose dictionary is `w.md_dict`:
```
try { pybind11_init_name(m); return m.ptr(); }
catch (const std::exception &e) { PyErr_SetString(PyExc_ImportError, e.what()); return nullptr; }
```
On normal return of the body the error indicator is left as the body left it. -/
def runInit (init : World → Except runtime_error Unit × World) (w : World) : InitResult :=
  match init w with
  | (Except.ok (), w1) => ⟨some w1.md_dict, w1.err⟩
  | (Except.error e, _) => ⟨Option.none, some ⟨PyExcType.ImportError, e.what⟩⟩

/-- The world at the start of the body: `module_::create_extension_module`
has just made the module, no error is set, and the body has made no host
call yet. -/
def freshWorld (allocOk insertOk : Nat → Bool) : World :=
  { allocOk := allocOk, allocs := 0, insertOk := insertOk, inserts := 0,
    md_dict := PyModule_Create "_constants", err := Option.none }

/-- The function `PyInit__constants` that `PYBIND11_MODULE(_constants, module)`
expands to: create the extension module, run the body inside `try`.
`allocOk` and `insertOk` are the outcomes of the host's float creations and
insertions. -/
def PyInit__constants (kAirSpecificHeat : Double) (allocOk insertOk : Nat → Bool) :
    InitResult :=
  runInit (pybind11_init__constants kAirSpecificHeat) (freshWorld allocOk insertOk)

/-! ## Constant tables -/

theorem set_of_absent (d : Dict) (k : String) (v : PyObject)
    (h : PyDict_GetItemString d k = none) : PyDict_SetItemString d k v = d ++ [(k, v)] := by
  induction d with
  | nil => rfl
  | cons kv rest ih =>
    obtain ⟨k0, v0⟩ := kv
    by_cases h0 : k0 = k
    · simp [PyDict_GetItemString, h0] at h
    · simp [PyDict_GetItemString, h0] at h
      simp [PyDict_SetItemString, h0, ih h]

theorem get_append_left (d1 d2 : Dict) (k : String) (o : PyObject)
    (h : PyDict_GetItemString d1 k = some o) : PyDict_GetItemString (d1 ++ d2) k = some o := by
  induction d1 with
  | nil => simp [PyDict_GetItemString] at h
  | cons kv rest ih =>
    obtain ⟨k0, v0⟩ := kv
    by_cases h0 : k0 = k
    · simpa [PyDict_GetItemString, h0] using h
    · simp only [PyDict_GetItemString, h0, if_false] at h
      simpa [PyDict_GetItemString, h0] using ih h

theorem get_append_right (d1 d2 : Dict) (k : String)
    (h : PyDict_GetItemString d1 k = none) :
    PyDict_GetItemString (d1 ++ d2) k = PyDict_GetItemString d2 k := by
  induction d1 with
  | nil => rfl
  | cons kv rest ih =>
    obtain ⟨k0, v0⟩ := kv
    by_cases h0 : k0 = k
    · simp [PyDict_GetItemString, h0] at h
    · simp only [PyDict_GetItemString, h0, if_false] at h
      simpa [PyDict_GetItemString, h0] using ih h

theorem hasAttribute_false_get (d : Dict) (name : String) (h : hasAttribute d name = false) :
    PyDict_GetItemString d name = none := by
  unfold hasAttribute at h
  cases hg : PyDict_GetItemString d name with
  | none => rfl
  | some o => simp [hg] at h

/-- The four paths of the source's statement: the float cannot be
allocated; the name is already an attribute; the binding is inserted; the
insertion fails and the failure is dropped. -/
theorem init_eq (value : Double) (w : World) :
    pybind11_init__constants value w =
      if w.allocOk w.allocs = true then
        if hasAttribute w.md_dict "AIR_SPECIFIC_HEAT" = true then
          (Except.error (pybind11_fail (duplicateMessage "AIR_SPECIFIC_HEAT")),
            { w with allocs := w.allocs + 1 })
        else if w.insertOk w.inserts = true then
          (Except.ok (), { w with allocs := w.allocs + 1, inserts := w.inserts + 1,
                                  md_dict := w.md_dict ++ [("AIR_SPECIFIC_HEAT", PyObject.float value)],
                                  err := none })
        else
          (Except.ok (), { w with allocs := w.allocs + 1, inserts := w.inserts + 1,
                                  err := some PyErr_NoMemory })
      else
        (Except.error (pybind11_fail "Could not allocate float object!"),
          { w with allocs := w.allocs + 1, err := some PyErr_NoMemory }) := by
  unfold pybind11_init__constants float_ PyFloat_FromDouble
  by_cases ha : w.allocOk w.allocs = true
  · by_cases hb : hasAttribute w.md_dict "AIR_SPECIFIC_HEAT" = true
    · simp [ha, hb, add_object, hasattr]
    · have hb2 : hasAttribute w.md_dict "AIR_SPECIFIC_HEAT" = false := by simpa using hb
      have hg := hasAttribute_false_get _ _ hb2
      by_cases hi : w.insertOk w.inserts = true
      · simp [ha, hb2, hi, add_object, hasattr, PyModule_AddObject, set_of_absent _ _ _ hg]
      · simp [ha, hb2, hi, add_object, hasattr, PyModule_AddObject]
  · simp [ha]

theorem hasattr_fst (w : World) (name : String) :
    (hasattr w name).1 = hasAttribute w.md_dict name := by
  unfold hasattr
  cases h : hasAttribute w.md_dict name <;> simp

/-- What the initialiser hands back from a module `w`, by the outcomes of the
float creation, of the `hasattr` guard and of the insertion. -/
theorem runInit_init_eq (k : Double) (w : World) :
    runInit (pybind11_init__constants k) w =
      if w.allocOk w.allocs = true then
        if hasAttribute w.md_dict "AIR_SPECIFIC_HEAT" = true then
          ⟨none, some ⟨PyExcType.ImportError, duplicateMessage "AIR_SPECIFIC_HEAT"⟩⟩
        else if w.insertOk w.inserts = true then
          ⟨some (w.md_dict ++ [("AIR_SPECIFIC_HEAT", PyObject.float k)]), none⟩
        else
          ⟨some w.md_dict, some PyErr_NoMemory⟩
      else
        ⟨none, some ⟨PyExcType.ImportError, "Could not allocate float object!"⟩⟩ := by
  unfold runInit
  rw [init_eq]
  by_cases ha : w.allocOk w.allocs = true
  · by_cases hb : hasAttribute w.md_dict "AIR_SPECIFIC_HEAT" = true
    · simp [ha, hb, pybind11_fail]
    · by_cases hi : w.insertOk w.inserts = true
      · simp [ha, hb, hi]
      · simp [ha, hb, hi]
  · simp [ha, pybind11_fail]

/-- The dictionary the body leaves in a module `w`. -/
theorem init_md_dict (k : Double) (w : World) :
    (pybind11_init__constants k w).2.md_dict =
      if w.allocOk w.allocs = true ∧ hasAttribute w.md_dict "AIR_SPECIFIC_HEAT" = false ∧
          w.insertOk w.inserts = true then
        w.md_dict ++ [("AIR_SPECIFIC_HEAT", PyObject.float k)]
      else w.md_dict := by
  rw [init_eq]
  by_cases ha : w.allocOk w.allocs = true
  · by_cases hb : hasAttribute w.md_dict "AIR_SPECIFIC_HEAT" = true
    · simp [ha, hb]
    · by_cases hi : w.insertOk w.inserts = true
      · simp [ha, hb, hi]
      · simp [ha, hb, hi]
  · simp [ha]

/-- When the initialiser returns the module with no error set, the float was
created, the name was not yet an attribute, the insertion succeeded, and the
dictionary is the old one with the one binding appended. -/
theorem runInit_init_success (k : Double) (w : World) (d : Dict)
    (h : runInit (pybind11_init__constants k) w = ⟨some d, none⟩) :
    d = w.md_dict ++ [("AIR_SPECIFIC_HEAT", PyObject.float k)] ∧
      w.allocOk w.allocs = true ∧ hasAttribute w.md_dict "AIR_SPECIFIC_HEAT" = false ∧
      w.insertOk w.inserts = true := by
  rw [runInit_init_eq] at h
  by_cases ha : w.allocOk w.allocs = true
  · by_cases hb : hasAttribute w.md_dict "AIR_SPECIFIC_HEAT" = true
    · simp [ha, hb] at h
    · by_cases hi : w.insertOk w.inserts = true
      · have hb2 : hasAttribute w.md_dict "AIR_SPECIFIC_HEAT" = false := by simpa using hb
        simp only [ha, hb2, hi, if_true, Bool.false_eq_true, if_false, InitResult.mk.injEq,
          Option.some.injEq, and_true] at h
        exact ⟨h.symm, ha, hb2, hi⟩
      · simp [ha, hb, hi, PyErr_NoMemory] at h
  · simp [ha] at h

theorem get_air_of_success (k : Double) (d0 : Dict)
    (h : hasAttribute d0 "AIR_SPECIFIC_HEAT" = false) :
    PyDict_GetItemString (d0 ++ [("AIR_SPECIFIC_HEAT", PyObject.float k)]) "AIR_SPECIFIC_HEAT" =
      some (PyObject.float k) := by
  rw [get_append_right _ _ _ (hasAttribute_false_get _ _ h)]
  simp [PyDict_GetItemString]

/-- On a module where the name is not yet an attribute, `add_object` does not
throw, whatever the insertion does. -/
theorem add_object_of_unbound (name : String) (obj : PyObject) (w : World)
    (hb : hasAttribute w.md_dict name = false) :
    (add_object name obj false w).1 = Except.ok () := by
  unfold add_object hasattr
  simp [hb]

/-- C1: after a successful run of the module initialiser (the module is
returned and no error is set) the namespace has an attribute
`AIR_SPECIFIC_HEAT`, and reading the double out of that attribute gives back
`kAirSpecificHeat` itself, bit for bit. -/
theorem C1_declared_constant_bound_exactly (kAirSpecificHeat : Double)
    (allocOk insertOk : Nat → Bool) (d : Dict)
    (hload : PyInit__constants kAirSpecificHeat allocOk insertOk = ⟨some d, none⟩) :
    ∃ obj, PyDict_GetItemString d "AIR_SPECIFIC_HEAT" = some obj ∧
      PyFloat_AsDouble obj = some kAirSpecificHeat := by
  obtain ⟨hd, _, hb, _⟩ := runInit_init_success _ _ _ hload
  rw [hd]
  exact ⟨PyObject.float kAirSpecificHeat, get_air_of_success _ _ hb, rfl⟩

theorem C1_declared_constant_bound_exactly_witness :
    PyInit__constants double_1005_0 (fun _ => true) (fun _ => true) =
        ⟨some (PyModule_Create "_constants" ++
          [("AIR_SPECIFIC_HEAT", PyObject.float double_1005_0)]), none⟩ ∧
      ∃ obj, PyDict_GetItemString
          (PyModule_Create "_constants" ++
            [("AIR_SPECIFIC_HEAT", PyObject.float double_1005_0)])
          "AIR_SPECIFIC_HEAT" = some obj ∧
        PyFloat_AsDouble obj = some double_1005_0 :=
  ⟨by decide,
   C1_declared_constant_bound_exactly double_1005_0 (fun _ => true) (fun _ => true) _
     (by decide)⟩

/-- C2: with `kAirSpecificHeat` the double `1005.0`, after the initialiser has
run successfully the attribute `AIR_SPECIFIC_HEAT` is a host float object
(not an integer object) whose double is `kAirSpecificHeat` and denotes
exactly 1005. -/
theorem C2_air_specific_heat_is_float_1005 (kAirSpecificHeat : Double)
    (allocOk insertOk : Nat → Bool) (d : Dict)
    (hvalue : kAirSpecificHeat.toRat = some 1005)
    (hload : PyInit__constants kAirSpecificHeat allocOk insertOk = ⟨some d, none⟩) :
    ∃ obj, PyDict_GetItemString d "AIR_SPECIFIC_HEAT" = some obj ∧
      PyFloat_Check obj = true ∧ (∀ n, obj ≠ PyObject.int n) ∧
      ∃ v, PyFloat_AsDouble obj = some v ∧ v = kAirSpecificHeat ∧ v.toRat = some 1005 := by
  obtain ⟨hd, _, hb, _⟩ := runInit_init_success _ _ _ hload
  rw [hd]
  refine ⟨PyObject.float kAirSpecificHeat, get_air_of_success _ _ hb, rfl, ?_,
    kAirSpecificHeat, rfl, rfl, hvalue⟩
  intro n h; cases h

theorem C2_air_specific_heat_is_float_1005_witness :
    double_1005_0.toRat = some 1005 ∧
      PyInit__constants double_1005_0 (fun _ => true) (fun _ => true) =
        ⟨some (PyModule_Create "_constants" ++
          [("AIR_SPECIFIC_HEAT", PyObject.float double_1005_0)]), none⟩ ∧
      ∃ obj, PyDict_GetItemString
          (PyModule_Create "_constants" ++
            [("AIR_SPECIFIC_HEAT", PyObject.float double_1005_0)])
          "AIR_SPECIFIC_HEAT" = some obj ∧
        PyFloat_Check obj = true ∧ (∀ n, obj ≠ PyObject.int n) ∧
        ∃ v, PyFloat_AsDouble obj = some v ∧ v = double_1005_0 ∧ v.toRat = some 1005 :=
  ⟨by norm_num [Double.toRat, Double.biasedExp, Double.sign, Double.fraction, double_1005_0],
   by decide,
   C2_air_specific_heat_is_float_1005 double_1005_0 (fun _ => true) (fun _ => true) _
     (by norm_num [Double.toRat, Double.biasedExp, Double.sign, Double.fraction, double_1005_0])
     (by decide)⟩

/-- C3, as stated, fails: after a successful run the namespace also has the
attribute `__name__`, which the host put there when it created the module, so
its attribute names are not exactly the declared constant names. -/
theorem C3_namespace_only_constants_counterexample :
    ∃ d, PyInit__constants double_1005_0 (fun _ => true) (fun _ => true) = ⟨some d, none⟩ ∧
      "__name__" ∈ d.keys ∧
      ¬ (∀ name, name ∈ d.keys ↔ name = "AIR_SPECIFIC_HEAT") :=
  ⟨PyModule_Create "_constants" ++ [("AIR_SPECIFIC_HEAT", PyObject.float double_1005_0)],
   by decide, by decide, fun h => absurd ((h "__name__").mp (by decide)) (by decide)⟩

/-- C3, amended: the initialiser adds no attribute other than the declared
constant name.  Whatever the module holds when the initialiser starts, after
a successful run the attribute names of the namespace are exactly the names
the module held at the start together with `AIR_SPECIFIC_HEAT`. -/
theorem C3_initialiser_adds_only_declared_names (kAirSpecificHeat : Double)
    (w : World) (d : Dict)
    (hload : runInit (pybind11_init__constants kAirSpecificHeat) w = ⟨some d, none⟩) :
    ∀ name, name ∈ d.keys ↔ (name ∈ w.md_dict.keys ∨ name = "AIR_SPECIFIC_HEAT") := by
  obtain ⟨hd, _, _, _⟩ := runInit_init_success _ _ _ hload
  intro name
  rw [hd]
  simp [Dict.keys]

theorem C3_initialiser_adds_only_declared_names_witness :
    runInit (pybind11_init__constants double_1005_0)
        (freshWorld (fun _ => true) (fun _ => true)) =
      ⟨some (PyModule_Create "_constants" ++
        [("AIR_SPECIFIC_HEAT", PyObject.float double_1005_0)]), none⟩ ∧
    ∀ name, name ∈ Dict.keys (PyModule_Create "_constants" ++
          [("AIR_SPECIFIC_HEAT", PyObject.float double_1005_0)]) ↔
      (name ∈ (freshWorld (fun _ => true) (fun _ => true)).md_dict.keys ∨
        name = "AIR_SPECIFIC_HEAT") :=
  ⟨by decide,
   C3_initialiser_adds_only_declared_names double_1005_0
     (freshWorld (fun _ => true) (fun _ => true)) _ (by decide)⟩

/-- C5, as stated, fails: the host creates the float, yet its insertion call
fails, and the initialiser does not succeed: it hands back the module with an
error set and `AIR_SPECIFIC_HEAT` unbound. -/
theorem C5_float_created_load_fails_counterexample :
    (float_ double_1005_0 (freshWorld (fun _ => true) (fun _ => false))).1 =
        Except.ok (PyObject.float double_1005_0) ∧
      (PyInit__constants double_1005_0 (fun _ => true) (fun _ => false)).err =
        some PyErr_NoMemory ∧
      ¬ ∃ d, PyInit__constants double_1005_0 (fun _ => true) (fun _ => false) = ⟨some d, none⟩ := by
  refine ⟨rfl, by decide, ?_⟩
  rintro ⟨d, hd⟩
  have herr : (PyInit__constants double_1005_0 (fun _ => true) (fun _ => false)).err =
      some PyErr_NoMemory := by decide
  rw [hd] at herr
  cases herr

/-- C5, amended: on a freshly created module, registration fails exactly when
the host's float creation or the host's insertion call fails.  The
initialiser succeeds (module returned, no error set) exactly when both
succeed; it returns `nullptr` exactly when the float creation failed; it
returns the module with the insertion's error set exactly when the float was
created and the insertion failed; and the `add_object` call under
`AIR_SPECIFIC_HEAT` never throws there. -/
theorem C5_fails_iff_creation_or_insertion_fails (kAirSpecificHeat : Double)
    (allocOk insertOk : Nat → Bool) :
    ((∃ d, PyInit__constants kAirSpecificHeat allocOk insertOk = ⟨some d, none⟩) ↔
        (allocOk 0 = true ∧ insertOk 0 = true)) ∧
    ((PyInit__constants kAirSpecificHeat allocOk insertOk).ret = none ↔ allocOk 0 = false) ∧
    (PyInit__constants kAirSpecificHeat allocOk insertOk =
          ⟨some (PyModule_Create "_constants"), some PyErr_NoMemory⟩ ↔
        (allocOk 0 = true ∧ insertOk 0 = false)) ∧
    ((float_ kAirSpecificHeat (freshWorld allocOk insertOk)).1 =
          Except.ok (PyObject.float kAirSpecificHeat) ↔ allocOk 0 = true) ∧
    (∀ obj w1, float_ kAirSpecificHeat (freshWorld allocOk insertOk) = (Except.ok obj, w1) →
        (add_object "AIR_SPECIFIC_HEAT" obj false w1).1 = Except.ok ()) := by
  have hfresh : hasAttribute (PyModule_Create "_constants") "AIR_SPECIFIC_HEAT" = false := by
    decide
  have hR := runInit_init_eq kAirSpecificHeat (freshWorld allocOk insertOk)
  simp only [freshWorld, hfresh, Bool.false_eq_true, if_false] at hR
  refine ⟨?_, ?_, ?_, ?_, ?_⟩
  · unfold PyInit__constants
    simp only [freshWorld]
    rw [hR]
    cases ha : allocOk 0 <;> cases hi : insertOk 0 <;> simp [PyErr_NoMemory]
  · unfold PyInit__constants
    simp only [freshWorld]
    rw [hR]
    cases ha : allocOk 0 <;> cases hi : insertOk 0 <;> simp
  · unfold PyInit__constants
    simp only [freshWorld]
    rw [hR]
    cases ha : allocOk 0 <;> cases hi : insertOk 0 <;> simp
  · cases ha : allocOk 0 <;> simp [float_, PyFloat_FromDouble, freshWorld, ha]
  · intro obj w1 h
    have hw : w1.md_dict = PyModule_Create "_constants" := by
      cases ha : allocOk 0
      · simp [float_, PyFloat_FromDouble, freshWorld, ha] at h
      · simp only [float_, PyFloat_FromDouble, freshWorld, ha, if_true, Prod.mk.injEq] at h
        rw [← h.2]
    exact add_object_of_unbound _ _ _ (by rw [hw]; exact hfresh)

/-- C6: two runs of the module initialiser that both succeed return the same
name-to-value mapping (indeed the same dictionary), whatever the host did in
either run: nothing is carried from one run to the next. -/
theorem C6_two_loads_identical (kAirSpecificHeat : Double)
    (allocOk1 insertOk1 allocOk2 insertOk2 : Nat → Bool) (d1 d2 : Dict)
    (hload1 : PyInit__constants kAirSpecificHeat allocOk1 insertOk1 = ⟨some d1, none⟩)
    (hload2 : PyInit__constants kAirSpecificHeat allocOk2 insertOk2 = ⟨some d2, none⟩) :
    d1 = d2 ∧ ∀ name, PyDict_GetItemString d1 name = PyDict_GetItemString d2 name := by
  have h : d1 = d2 := by
    rw [(runInit_init_success _ _ _ hload1).1, (runInit_init_success _ _ _ hload2).1]
    rfl
  exact ⟨h, fun name => by rw [h]⟩

theorem C6_two_loads_identical_witness :
    PyInit__constants double_1005_0 (fun _ => true) (fun _ => true) =
        ⟨some (PyModule_Create "_constants" ++
          [("AIR_SPECIFIC_HEAT", PyObject.float double_1005_0)]), none⟩ ∧
      PyInit__constants double_1005_0 (fun n => decide (n < 3)) (fun n => decide (n < 1)) =
        ⟨some (PyModule_Create "_constants" ++
          [("AIR_SPECIFIC_HEAT", PyObject.float double_1005_0)]), none⟩ ∧
      (PyModule_Create "_constants" ++ [("AIR_SPECIFIC_HEAT", PyObject.float double_1005_0)] =
          PyModule_Create "_constants" ++ [("AIR_SPECIFIC_HEAT", PyObject.float double_1005_0)] ∧
        ∀ name,
          PyDict_GetItemString (PyModule_Create "_constants" ++
              [("AIR_SPECIFIC_HEAT", PyObject.float double_1005_0)]) name =
            PyDict_GetItemString (PyModule_Create "_constants" ++
              [("AIR_SPECIFIC_HEAT", PyObject.float double_1005_0)]) name) :=
  ⟨by decide, by decide,
   C6_two_loads_identical double_1005_0 (fun _ => true) (fun _ => true)
     (fun n => decide (n < 3)) (fun n => decide (n < 1)) _ _ (by decide) (by decide)⟩

/-- C10, as stated, fails: from the freshly created module, which does not
hold `AIR_SPECIFIC_HEAT`, with a host whose insertion call fails, the body
returns normally and has inserted nothing: the dictionary is unchanged and
the key is still absent. -/
theorem C10_exactly_one_insertion_counterexample :
    (hasattr (freshWorld (fun _ => true) (fun _ => false)) "AIR_SPECIFIC_HEAT").1 = false ∧
    (pybind11_init__constants double_1005_0
        (freshWorld (fun _ => true) (fun _ => false))).1 = Except.ok () ∧
    (pybind11_init__constants double_1005_0
        (freshWorld (fun _ => true) (fun _ => false))).2.md_dict =
      (freshWorld (fun _ => true) (fun _ => false)).md_dict ∧
    PyDict_GetItemString
        (pybind11_init__constants double_1005_0
          (freshWorld (fun _ => true) (fun _ => false))).2.md_dict
        "AIR_SPECIFIC_HEAT" = none :=
  ⟨by decide, by rfl, by decide, by decide⟩

/-- C10, amended: the initialiser performs at most one insertion, under
`AIR_SPECIFIC_HEAT`, and exactly one when the host's float creation and
insertion calls both succeed.  From any namespace not yet holding that key:
every other key maps afterwards to what it mapped to before; every key
present before is still present; every key present afterwards was present
before or is `AIR_SPECIFIC_HEAT`; when both host calls succeed the body
returns normally and the dictionary is the old one with the single binding of
`AIR_SPECIFIC_HEAT` to the float appended; when either fails the dictionary
is unchanged. -/
theorem C10_only_air_specific_heat_inserted (kAirSpecificHeat : Double) (w : World)
    (habsent : (hasattr w "AIR_SPECIFIC_HEAT").1 = false) :
    (∀ key, key ≠ "AIR_SPECIFIC_HEAT" →
        PyDict_GetItemString (pybind11_init__constants kAirSpecificHeat w).2.md_dict key =
          PyDict_GetItemString w.md_dict key) ∧
    (∀ key, key ∈ w.md_dict.keys →
        key ∈ (pybind11_init__constants kAirSpecificHeat w).2.md_dict.keys) ∧
    (∀ key, key ∈ (pybind11_init__constants kAirSpecificHeat w).2.md_dict.keys →
        key ∈ w.md_dict.keys ∨ key = "AIR_SPECIFIC_HEAT") ∧
    (w.allocOk w.allocs = true ∧ w.insertOk w.inserts = true →
        (pybind11_init__constants kAirSpecificHeat w).1 = Except.ok () ∧
        (pybind11_init__constants kAirSpecificHeat w).2.md_dict =
          w.md_dict ++ [("AIR_SPECIFIC_HEAT", PyObject.float kAirSpecificHeat)]) ∧
    (¬ (w.allocOk w.allocs = true ∧ w.insertOk w.inserts = true) →
        (pybind11_init__constants kAirSpecificHeat w).2.md_dict = w.md_dict) := by
  rw [hasattr_fst] at habsent
  have hg := hasAttribute_false_get _ _ habsent
  rw [init_md_dict]
  by_cases hok : w.allocOk w.allocs = true ∧ w.insertOk w.inserts = true
  · have hcond : w.allocOk w.allocs = true ∧
        hasAttribute w.md_dict "AIR_SPECIFIC_HEAT" = false ∧ w.insertOk w.inserts = true :=
      ⟨hok.1, habsent, hok.2⟩
    rw [if_pos hcond]
    refine ⟨?_, ?_, ?_, fun _ => ⟨?_, rfl⟩, fun h => absurd hok h⟩
    · intro key hkey
      cases hk : PyDict_GetItemString w.md_dict key with
      | some o => exact get_append_left _ _ _ _ hk
      | none =>
        rw [get_append_right _ _ _ hk]
        simp [PyDict_GetItemString, Ne.symm hkey]
    · intro key hkey
      simp only [Dict.keys, List.map_append, List.mem_append] at hkey ⊢
      exact Or.inl hkey
    · intro key hkey
      simpa [Dict.keys] using hkey
    · rw [init_eq]
      simp [hok.1, hok.2, habsent]
  · have hcond : ¬ (w.allocOk w.allocs = true ∧
        hasAttribute w.md_dict "AIR_SPECIFIC_HEAT" = false ∧ w.insertOk w.inserts = true) :=
      fun h => hok ⟨h.1, h.2.2⟩
    rw [if_neg hcond]
    exact ⟨fun _ _ => rfl, fun _ h => h, fun _ h => Or.inl h, fun h => absurd h hok,
      fun _ => rfl⟩

theorem C10_only_air_specific_heat_inserted_witness :
    (hasattr (freshWorld (fun _ => true) (fun _ => true)) "AIR_SPECIFIC_HEAT").1 = false ∧
    (pybind11_init__constants double_1005_0
        (freshWorld (fun _ => true) (fun _ => true))).1 = Except.ok () ∧
    (pybind11_init__constants double_1005_0
        (freshWorld (fun _ => true) (fun _ => true))).2.md_dict =
      (freshWorld (fun _ => true) (fun _ => true)).md_dict ++
        [("AIR_SPECIFIC_HEAT", PyObject.float double_1005_0)] :=
  ⟨by decide,
   (C10_only_air_specific_heat_inserted double_1005_0
      (freshWorld (fun _ => true) (fun _ => true)) (by decide)).2.2.2.1 ⟨rfl, rfl⟩⟩

end ccpd.fluids
